import Mathlib

/-!
Shallow embedding of the backend-dispatch and diagnostic-context core of a
GPU API implementation (`wgpu-core`): the diagnostic `Context` from
`src/wgpu-core/src/context.rs`, the type-erased `CoreTable` from
`src/wgpu-core/src/core_table.rs`, and the `Global` teardown from
`src/wgpu-core/src/global.rs`.

Rust `Vec<T>` is modelled as `List T` in the same order (push appends at the
end, `pop` removes the last element); machine indices are `Nat`.
-/

namespace WgpuCore

/-- The kind of an error (`Diagnostic` in `context.rs`).  Each variant wraps a
lower-level error from an external module (device, binding model, pipeline,
validation); those payload types are external collaborators, so each is
modelled as an opaque `Nat` value. -/
inductive Diagnostic where
  | DeviceError (cause : Nat)
  | CreateBindGroupLayoutError (cause : Nat)
  | CreatePipelineLayoutError (cause : Nat)
  | CreateRenderPipelineError (cause : Nat)
  | CreateComputePipelineError (cause : Nat)
  | ImplicitLayoutError (cause : Nat)
  | MissingFeatures (cause : Nat)
  | MissingDownlevelFlags (cause : Nat)
  | StageError (cause : Nat)
deriving DecidableEq, Repr

/-- A single step of the trace path (`TraceStep` in `context.rs`): a field and
optionally an associated index of that field. -/
inductive TraceStep where
  | field (name : String) (index : Option Nat)
deriving DecidableEq, Repr

/-- The token returned by `Context::enter`, consumed by `Context::leave`. -/
structure Enter where
  trace : Nat
  capture : Option Nat
deriving DecidableEq, Repr

/-- The zero-information error marker returned by wgpu-core functions
(`Error` in `context.rs`). -/
inductive Error where
  | mk
deriving DecidableEq, Repr

/-- The traced path of a reported diagnostic (`DiagnosticTrace`); it wraps a
snapshot of trace steps. -/
structure DiagnosticTrace where
  steps : List TraceStep
deriving DecidableEq, Repr

/-- A captured diagnostic together with the index of its interned trace
(`StoredDiagnostic` in `context.rs`). -/
structure StoredDiagnostic where
  trace : Nat
  diagnostic : Diagnostic
deriving DecidableEq, Repr

/-- A context capable of tracing and collecting errors raised in wgpu-core
(`Context` in `context.rs`).  The lifetime parameter and `PhantomData` marker
carry no state and are omitted. -/
structure Context where
  /-- Captured diagnostics. -/
  diagnostics : List StoredDiagnostic
  /-- The current trace. -/
  trace : List TraceStep
  /-- Indicates the index of the current captured trace. -/
  stored_trace : Option Nat
  /-- Captured traces. -/
  traces : List (List TraceStep)
deriving DecidableEq, Repr

namespace Context

/-- Model of `Context::new`: construct a new empty context. -/
def new : Context :=
  { diagnostics := [], trace := [], stored_trace := none, traces := [] }

/-- Model of `Context::is_empty`: indicate if we have diagnostics to report. -/
def is_empty (c : Context) : Bool :=
  c.diagnostics.isEmpty

/-- Model of `Context::drain`: remove and return all diagnostics from the context,
each paired with its interned trace looked up in `traces`. -/
def drain (c : Context) : Context × List (Option DiagnosticTrace × Diagnostic) :=
  ({ c with diagnostics := [] },
    c.diagnostics.map fun captured =>
      ((c.traces.get? captured.trace).map fun steps => DiagnosticTrace.mk steps,
        captured.diagnostic))

/-- Model of `Context::enter`: enter a field for tracing purposes.  In the source the
statement `self.stored_trace = None;` runs before `self.stored_trace.take()`,
so the `capture` component of the returned token is always `None`. -/
def enter (c : Context) (field : String) : Context × Enter :=
  let expected := c.trace.length
  let trace := c.trace ++ [TraceStep.field field none]
  let stored_trace : Option Nat := none
  ({ c with trace := trace, stored_trace := stored_trace },
    { trace := expected, capture := stored_trace })

/-- Model of `Context::leave` under debug-build semantics: the two `debug_assert!`
statements ("Unbalanced trace") are fatal, modelled as `none`.  The source
pops the last trace step, asserts that a step was popped and that the depth
recorded in the token matches the remaining length, then restores `stored_trace`
from the token. -/
def leave (c : Context) (enter : Enter) : Option Context :=
  let fragment := c.trace.getLast?
  let trace := c.trace.dropLast
  if fragment.isSome then
    if enter.trace = trace.length then
      some { c with trace := trace, stored_trace := enter.capture }
    else
      none
  else
    none

/-- Model of `Context::leave` under release-build semantics: the `debug_assert!`
statements are compiled out, so the pop and the `stored_trace` restore happen
unconditionally. -/
def leaveRelease (c : Context) (enter : Enter) : Context :=
  { c with trace := c.trace.dropLast, stored_trace := enter.capture }

/-- Model of `Context::index`: annotate the most recently entered field with an index
and invalidate the interned-trace cache.  When the trace is empty the
`if let` does not fire and the trace is unchanged. -/
def index (c : Context) (index : Nat) : Context :=
  let trace :=
    match c.trace.getLast? with
    | some (TraceStep.field f _) => c.trace.dropLast ++ [TraceStep.field f (some index)]
    | none => c.trace
  { c with trace := trace, stored_trace := none }

/-- Model of `Context::capture`: intern the current trace (reusing `stored_trace` when
set) and append a `(trace, diagnostic)` record. -/
def capture (c : Context) (diagnostic : Diagnostic) : Context :=
  match c.stored_trace with
  | some trace =>
      { c with diagnostics := c.diagnostics ++ [⟨trace, diagnostic⟩] }
  | none =>
      let trace := c.traces.length
      { c with
        traces := c.traces ++ [c.trace],
        stored_trace := some trace,
        diagnostics := c.diagnostics ++ [⟨trace, diagnostic⟩] }

/-- Model of `Context::result`: capture the error of a `Result<T, E>` (converted into
a `Diagnostic` via the `From` impl, modelled by `into`) and map it to the
`Error` marker, or pass the success value through. -/
def result {E T : Type} (c : Context) (into : E → Diagnostic) (r : Except E T) :
    Context × Except Error T :=
  match r with
  | Except.ok value => (c, Except.ok value)
  | Except.error error => (c.capture (into error), Except.error Error.mk)

/-- Model of `Context::report`: capture a diagnostic directly, returning the `Error`
marker. -/
def report (c : Context) (error : Diagnostic) : Context × Error :=
  (c.capture error, Error.mk)

/-- Model of `Context::try_block`: run the callback; propagate its `Error` result.  On
success, if diagnostics are nevertheless pending, force a failure outcome
(the source additionally has a `debug_assert!` and a warning log on this
recovery path; the log is pure observation and is not modelled). -/
def try_block {T : Type} (c : Context) (cb : Context → Context × Except Error T) :
    Context × Except Error T :=
  match cb c with
  | (c1, Except.error e) => (c1, Except.error e)
  | (c1, Except.ok value) =>
      if !c1.is_empty then
        (c1, Except.error Error.mk)
      else
        (c1, Except.ok value)

end Context

/-- One mutating operation that validation code can perform on a `Context`
through its `pub(crate)` surface: `enter`, `leave` (with an arbitrary token;
release semantics, so the sequence is total), `index`, `capture`,
`result` on an `Ok` or on an `Err`, and `report`.  `drain` empties the
accumulated diagnostics and belongs to the consuming caller, not to the
validation phase, so it is not an `Op`. -/
inductive Op where
  | enter (field : String)
  | leave (e : Enter)
  | index (i : Nat)
  | capture (d : Diagnostic)
  | result_ok
  | result_err (d : Diagnostic)
  | report (d : Diagnostic)
deriving DecidableEq, Repr

/-- Whether an operation captures a `Diagnostic` into the context: `capture`,
`result` applied to an `Err`, and `report` do; the others do not. -/
def Op.countsAsCapture : Op → Bool
  | .capture _ => true
  | .result_err _ => true
  | .report _ => true
  | _ => false

/-- Apply one operation to a context, discarding the returned
value (tokens, markers and passed-through success values). -/
def applyOp (c : Context) (op : Op) : Context :=
  match op with
  | .enter f => (c.enter f).1
  | .leave e => c.leaveRelease e
  | .index i => c.index i
  | .capture d => c.capture d
  | .result_ok => (c.result (E := Diagnostic) (fun d => d) (Except.ok ())).1
  | .result_err d => (c.result (T := Unit) (fun x => x) (Except.error d)).1
  | .report d => (c.report d).1

/-- Run a sequence of operations on a fresh context. -/
def runOps (ops : List Op) : Context :=
  ops.foldl applyOp Context.new

/-! ## CoreTable (`core_table.rs`) -/

/-- Modelled from the spec: the runtime backend tag (`wgt::Backend`, defined
in the `wgpu-types` crate, which is not under `src/`) enumerates the no-op `Empty` fallback,
the four native backends, and `BrowserWebGpu`, a tag for which no `CoreTable`
exists (it falls into the `_ => None` arm of `try_from_backend`). -/
inductive Backend where
  | Empty
  | Vulkan
  | Metal
  | Dx12
  | Gl
  | BrowserWebGpu
deriving DecidableEq, Repr

/-- Modelled from the spec: `wgt::Backend::to_str` (not under `src/`), the
descriptive name of the tag used in the "unsupported backend"
deserialization error. -/
def Backend.to_str : Backend → String
  | .Empty => "empty"
  | .Vulkan => "vulkan"
  | .Metal => "metal"
  | .Dx12 => "dx12"
  | .Gl => "gl"
  | .BrowserWebGpu => "webgpu"

/-- Which backends are compiled into a build: the `cfg(vulkan)`, `cfg(metal)`,
`cfg(dx12)`, `cfg(gles)` flags, plus availability of the `Empty` backend. -/
structure BuildConfig where
  empty : Bool
  vulkan : Bool
  metal : Bool
  dx12 : Bool
  gles : Bool
deriving DecidableEq, Repr

/-- Whether the backend of the tag is compiled into the build described by `cfg`.
`BrowserWebGpu` never has a compiled-in `CoreTable`. -/
def BuildConfig.compiled (cfg : BuildConfig) : Backend → Bool
  | .Empty => cfg.empty
  | .Vulkan => cfg.vulkan
  | .Metal => cfg.metal
  | .Dx12 => cfg.dx12
  | .Gl => cfg.gles
  | .BrowserWebGpu => false

/-- The names of the function-pointer entries of `CoreTable`, one per `fn`
declared inside the `core_table!` macro invocation, in source order. -/
inductive EntryName where
  | adapter_get_info
  | adapter_get_texture_format_features
  | adapter_features
  | adapter_limits
  | adapter_downlevel_capabilities
  | adapter_get_presentation_timestamp
  | adapter_drop
  | surface_get_current_texture
  | surface_present
  | surface_texture_discard
  | adapter_request_device
  | queue_submit
  | adapter_is_surface_supported
  | surface_get_capabilities
  | device_features
  | device_limits
  | device_downlevel_properties
  | device_create_buffer
  | create_buffer_error
  | create_render_bundle_error
  | create_texture_error
  | device_wait_for_buffer
  | device_set_buffer_sub_data
  | device_get_buffer_sub_data
  | buffer_label
  | buffer_destroy
  | buffer_drop
  | device_create_texture
  | texture_label
  | texture_destroy
  | texture_drop
  | texture_create_view
  | texture_view_label
  | texture_view_drop
  | device_create_sampler
  | sampler_label
  | sampler_drop
  | device_create_bind_group_layout
  | bind_group_layout_label
  | bind_group_layout_drop
  | device_create_pipeline_layout
  | pipeline_layout_label
  | pipeline_layout_drop
  | device_create_bind_group
  | bind_group_label
  | bind_group_drop
  | device_create_shader_module
  | device_create_shader_module_spirv
  | shader_module_label
  | shader_module_drop
  | device_create_command_encoder
  | command_buffer_label
  | command_encoder_drop
  | command_buffer_drop
  | device_create_render_bundle_encoder
  | render_bundle_encoder_finish
  | render_bundle_label
  | render_bundle_drop
  | device_create_query_set
  | query_set_drop
  | query_set_label
  | device_create_render_pipeline
  | render_pipeline_get_bind_group_layout
  | render_pipeline_label
  | render_pipeline_drop
  | device_create_compute_pipeline
  | compute_pipeline_get_bind_group_layout
  | compute_pipeline_label
  | compute_pipeline_drop
  | surface_configure
  | device_maintain_ids
  | device_poll
  | poll_all_devices
  | device_label
  | device_start_capture
  | device_stop_capture
  | device_drop
  | device_set_device_lost_closure
  | device_destroy
  | device_mark_lost
  | queue_drop
  | buffer_map_async
  | buffer_get_mapped_range
  | buffer_unmap
  | command_encoder_copy_buffer_to_buffer
  | command_encoder_copy_buffer_to_texture
  | command_encoder_copy_texture_to_buffer
  | command_encoder_copy_texture_to_texture
  | command_encoder_run_render_pass
  | command_encoder_run_compute_pass
  | command_encoder_finish
  | command_encoder_push_debug_group
  | command_encoder_insert_debug_marker
  | command_encoder_pop_debug_group
  | command_encoder_clear_buffer
  | command_encoder_clear_texture
  | command_encoder_write_timestamp
  | command_encoder_resolve_query_set
  | queue_write_buffer
  | queue_create_staging_buffer
  | queue_write_staging_buffer
  | queue_write_texture
  | queue_get_timestamp_period
  | queue_on_submitted_work_done
  | queue_validate_write_buffer
deriving DecidableEq, Repr

/-- The type-erased table of backend functions (`CoreTable`).  The Rust signature of each
entry, `fn(&Global<IdentityManagerFactory>, args..) -> ret` is
abstracted as `GlobalT → Args n → Ret n`, since the argument and result
types (identifiers, descriptors) are external collaborators.  Exactly one
static instance exists per monomorphization of `CoreTable::new`, i.e. per
backend, so the address of the promoted static is modelled by the `addr`
field and identified with the backend tag it was created for. -/
structure CoreTable (GlobalT : Type) (Args Ret : EntryName → Type) where
  addr : Backend
  backend : Backend
  entries : (n : EntryName) → GlobalT → Args n → Ret n

/-- Model of `CoreTable::new::<A>`: a table whose `backend` field is `A::VARIANT`
(the parameter `b`), whose every entry is the corresponding monomorphized
`Global` method `Global::<IdentityManagerFactory>::$name::<A>` (`impl b n`),
returned as the unique const-promoted static for this monomorphization
(`addr := b`). -/
def CoreTable.new {GlobalT : Type} {Args Ret : EntryName → Type}
    (impl : Backend → (n : EntryName) → GlobalT → Args n → Ret n)
    (b : Backend) : CoreTable GlobalT Args Ret :=
  { addr := b, backend := b, entries := impl b }

/-- The macro-generated forwarding method for entry `n`:
`(self.$name)(global, args..)`. -/
def CoreTable.invoke {GlobalT : Type} {Args Ret : EntryName → Type}
    (t : CoreTable GlobalT Args Ret) (n : EntryName)
    (global : GlobalT) (a : Args n) : Ret n :=
  t.entries n global a

/-- Model of `impl PartialEq for CoreTable`: `ptr::eq(self, other)`, identity of the
static instances, modelled as equality of static addresses. -/
def CoreTable.ptr_eq {GlobalT : Type} {Args Ret : EntryName → Type}
    (t u : CoreTable GlobalT Args Ret) : Bool :=
  decide (t.addr = u.addr)

/-- Modelled from the spec: the `gfx_try_if_*` macros (declared in the crate
root, which is not under `src/`) evaluate to `Some(expr)` when the named
backend is compiled into the build and to `None` otherwise. -/
def gfx_try_if {α : Type} (enabled : Bool) (table : α) : Option α :=
  if enabled then some table else none

/-- Model of `CoreTable::try_from_backend`: map a runtime backend tag to the
corresponding static table, or `None` when that backend is not compiled in. -/
def CoreTable.try_from_backend {GlobalT : Type} {Args Ret : EntryName → Type}
    (impl : Backend → (n : EntryName) → GlobalT → Args n → Ret n)
    (cfg : BuildConfig) (backend : Backend) : Option (CoreTable GlobalT Args Ret) :=
  match backend with
  | .Empty => gfx_try_if cfg.empty (CoreTable.new impl .Empty)
  | .Vulkan => gfx_try_if cfg.vulkan (CoreTable.new impl .Vulkan)
  | .Metal => gfx_try_if cfg.metal (CoreTable.new impl .Metal)
  | .Dx12 => gfx_try_if cfg.dx12 (CoreTable.new impl .Dx12)
  | .Gl => gfx_try_if cfg.gles (CoreTable.new impl .Gl)
  | .BrowserWebGpu => none

/-- Model of `CoreTable::from_backend`: like `try_from_backend`, but
`panic!("Unsupported backend")` — modelled as `none` — when the backend is
not compiled in. -/
def CoreTable.from_backend {GlobalT : Type} {Args Ret : EntryName → Type}
    (impl : Backend → (n : EntryName) → GlobalT → Args n → Ret n)
    (cfg : BuildConfig) (backend : Backend) : Option (CoreTable GlobalT Args Ret) :=
  match CoreTable.try_from_backend impl cfg backend with
  | some table => some table
  | none => none

/-- Model of `impl Serialize for CoreTable`: serialization writes exactly the
backend tag (`self.backend.serialize(serializer)`). -/
def CoreTable.serialize {GlobalT : Type} {Args Ret : EntryName → Type}
    (t : CoreTable GlobalT Args Ret) : Backend :=
  t.backend

/-- Model of `impl Deserialize for a static CoreTable reference`: read a backend tag, resolve
it with `try_from_backend`, and fail with a descriptive "Unsupported
backend" error when it is not compiled in. -/
def CoreTable.deserialize {GlobalT : Type} {Args Ret : EntryName → Type}
    (impl : Backend → (n : EntryName) → GlobalT → Args n → Ret n)
    (cfg : BuildConfig) (backend : Backend) : Except String (CoreTable GlobalT Args Ret) :=
  match CoreTable.try_from_backend impl cfg backend with
  | some core => Except.ok core
  | none => Except.error ("Unsupported backend: " ++ backend.to_str)

/-! ## Global teardown (`global.rs`) -/

/-- Modelled from the spec: one slot of the storage of the surface registry
(`storage::Element`, defined outside `src/`): vacant, or occupied by an
`Arc<Surface>` whose total strong count is recorded.  The registry hands out shared
references to surfaces, so an occupied slot may have outstanding owners
besides the registry itself. -/
inductive SurfaceElement where
  | Vacant
  | Occupied (strong_count : Nat)
deriving DecidableEq, Repr

/-- An observable teardown step performed while a `Global` is destroyed. -/
inductive TeardownEvent where
  | clear_hub (backend : Backend)
  | destroy_surface (slot : Nat)
  | drop_instance
deriving DecidableEq, Repr

/-- The state of a `Global` relevant to teardown: its surface registry
(`self.surfaces`).  The platform instance and the per-backend hubs are
external resources whose destruction is recorded as `TeardownEvent`s. -/
structure Global where
  surfaces : List SurfaceElement
deriving DecidableEq, Repr

/-- The surface-drain loop of `impl Drop for Global`: each occupied slot is
drained; `Arc::into_inner` succeeds only when the registry held the last
strong reference (count 1) and the surface is then destroyed through the
instance; otherwise `panic!("Surface cannot be destroyed because is still in
use")`, modelled as `none`. -/
def drainSurfaces : List SurfaceElement → Nat → Option (List TeardownEvent)
  | [], _ => some []
  | SurfaceElement.Vacant :: rest, slot => drainSurfaces rest (slot + 1)
  | SurfaceElement.Occupied strong_count :: rest, slot =>
      if strong_count = 1 then
        match drainSurfaces rest (slot + 1) with
        | some events => some (TeardownEvent.destroy_surface slot :: events)
        | none => none
      else
        none

/-- The hub-clearing prologue of `impl Drop for Global`: one
`hub.clear(&surfaces_locked, true)` per compiled-in native backend, in
source order.  (The `metal` arm of the source reads `self.hubs.metal`, a
slip for `self.backends.metal`; the intended clear is modelled.)  The no-op
`Empty` fallback hub is not cleared by `drop`. -/
def hubClearEvents (cfg : BuildConfig) : List TeardownEvent :=
  (if cfg.vulkan then [TeardownEvent.clear_hub Backend.Vulkan] else []) ++
  (if cfg.metal then [TeardownEvent.clear_hub Backend.Metal] else []) ++
  (if cfg.dx12 then [TeardownEvent.clear_hub Backend.Dx12] else []) ++
  (if cfg.gles then [TeardownEvent.clear_hub Backend.Gl] else [])

/-- Model of `impl Drop for Global` as an event trace: clear the compiled-in hubs,
then drain and destroy the registered surfaces (panicking, `none`, when a
surface still has another owner), and finally — after the `drop` body has
run — the `instance` field itself is dropped. -/
def Global.drop (cfg : BuildConfig) (g : Global) : Option (List TeardownEvent) :=
  match drainSurfaces g.surfaces 0 with
  | some events => some (hubClearEvents cfg ++ events ++ [TeardownEvent.drop_instance])
  | none => none

/-! ## Concrete inputs used by witnesses and counterexamples -/

/-- The build configuration with every backend compiled in. -/
def cfgAll : BuildConfig :=
  { empty := true, vulkan := true, metal := true, dx12 := true, gles := true }

/-- The build configuration with no backend compiled in. -/
def cfgNone : BuildConfig :=
  { empty := false, vulkan := false, metal := false, dx12 := false, gles := false }

/-- The trivial instantiation of the abstract per-entry signatures. -/
def unitImpl : Backend → (n : EntryName) → Unit → Unit → Unit :=
  fun _ _ _ _ => ()

/-- A callback that captures a diagnostic but still returns `Ok`: the
"forgot to propagate the marker" scenario of `try_block`. -/
def forgottenDiagnosticCb (c : Context) : Context × Except Error Nat :=
  (c.capture (Diagnostic.DeviceError 0), Except.ok 0)

/-- Two captures at the same (empty) trace path separated by a balanced
`enter`/`leave` pair on a fresh context. -/
def twoCapturesAcrossEnterLeave : Context :=
  let s1 := Context.new.capture (Diagnostic.DeviceError 0)
  let s2 := s1.enter "a"
  let s3 := (s2.1.leave s2.2).getD s2.1
  s3.capture (Diagnostic.DeviceError 1)

/-- The balanced sequence `enter "a"; enter "b"; leave (token of "b");
leave (token of "a")` on a fresh context, under debug semantics. -/
def balancedEnterLeave : Option Context :=
  let s1 := Context.new.enter "a"
  let s2 := s1.1.enter "b"
  match s2.1.leave s2.2 with
  | some c3 => c3.leave s1.2
  | none => none

/-- The teardown trace of a `Global` holding one solely-owned surface, on a
build with every backend compiled in. -/
def c8trace : List TeardownEvent :=
  [TeardownEvent.clear_hub Backend.Vulkan, TeardownEvent.clear_hub Backend.Metal,
    TeardownEvent.clear_hub Backend.Dx12, TeardownEvent.clear_hub Backend.Gl,
    TeardownEvent.destroy_surface 0, TeardownEvent.drop_instance]

/-! ## Theorems -/

lemma capture_diagnostics_length (c : Context) (d : Diagnostic) :
    (c.capture d).diagnostics.length = c.diagnostics.length + 1 := by
  cases h : c.stored_trace <;> simp [Context.capture, h]

lemma applyOp_diagnostics_length (c : Context) (op : Op) :
    (applyOp c op).diagnostics.length =
      c.diagnostics.length + (if op.countsAsCapture then 1 else 0) := by
  rcases op with f | e | i | d | _ | d | d <;>
    simp [applyOp, Op.countsAsCapture, Context.enter, Context.leaveRelease, Context.index,
      Context.result, Context.report, capture_diagnostics_length]

lemma foldl_applyOp_diagnostics_length (ops : List Op) (c : Context) :
    (ops.foldl applyOp c).diagnostics.length =
      c.diagnostics.length + ops.countP (fun op => op.countsAsCapture) := by
  induction ops generalizing c with
  | nil => simp
  | cons op ops ih =>
      rw [List.foldl_cons, ih, applyOp_diagnostics_length, List.countP_cons]
      split <;> omega

/-- Claim C1: on a fresh `Context`, after any sequence of validation
operations, `is_empty` returns `true` iff the sequence captured no
diagnostic (via `capture`, `result` on an `Err`, or `report`); in
particular any sequence containing at least one capturing operation leaves
`is_empty` returning `false`. -/
theorem C1_is_empty_iff_no_capture (ops : List Op) :
    (runOps ops).is_empty = true ↔ ∀ op ∈ ops, op.countsAsCapture = false := by
  simp only [runOps, Context.is_empty, List.isEmpty_iff_length_eq_zero,
    foldl_applyOp_diagnostics_length]
  simp [Context.new]

/-- Claim C2: `try_block` never yields a success outcome while diagnostics
are pending: if the closure returns success but the context it produced is
non-empty at that point, or if the closure returns the `Error` marker,
`try_block` returns the failure outcome. -/
theorem C2_try_block_never_false_success {T : Type} (c : Context)
    (cb : Context → Context × Except Error T)
    (h : (cb c).1.is_empty = false ∨ ∃ e, (cb c).2 = Except.error e) :
    ∃ e, (c.try_block cb).2 = Except.error e := by
  rcases hcb : cb c with ⟨c1, r⟩
  rcases r with e | v
  · exact ⟨e, by simp [Context.try_block, hcb]⟩
  · rcases h with hne | ⟨e, he⟩
    · rw [hcb] at hne
      exact ⟨Error.mk, by simp [Context.try_block, hcb, hne]⟩
    · rw [hcb] at he
      simp at he

/-- Witness for C2: a concrete closure that captures a diagnostic yet
returns success, run on a fresh context, is forced into the failure
outcome. -/
theorem C2_try_block_witness :
    (forgottenDiagnosticCb Context.new).1.is_empty = false ∧
    ∃ e, (Context.new.try_block forgottenDiagnosticCb).2 = Except.error e :=
  ⟨rfl, C2_try_block_never_false_success Context.new forgottenDiagnosticCb (Or.inl rfl)⟩

/-- Claim C3 counterexample: two captures whose current trace path is the
same (empty) sequence of steps, separated by a balanced `enter`/`leave`
pair, intern TWO path records (`traces` ends with two entries, the stored
diagnostics referencing records 0 and 1): the second capture does not reuse
the record interned by the first, because `enter` clears the cache and the
component `capture` of the token is always `None`. -/
theorem C3_counterexample_duplicate_interned_path :
    twoCapturesAcrossEnterLeave.traces = [[], []] ∧
    twoCapturesAcrossEnterLeave.diagnostics.map StoredDiagnostic.trace = [0, 1] := by
  decide

/-- Claim C3 (amended): two captures with no intervening `enter`, `leave` or
`index` call, at the same trace path, intern exactly one new path record;
both diagnostics reference that record, and `drain` yields both, each
referencing an equal path. -/
theorem C3_consecutive_captures_intern_once (c : Context) (d1 d2 : Diagnostic)
    (h : c.stored_trace = none) :
    ((c.capture d1).capture d2).traces = c.traces ++ [c.trace] ∧
    ((c.capture d1).capture d2).diagnostics =
      c.diagnostics ++ [⟨c.traces.length, d1⟩, ⟨c.traces.length, d2⟩] ∧
    (((c.capture d1).capture d2).drain).2.drop c.diagnostics.length =
      [(some ⟨c.trace⟩, d1), (some ⟨c.trace⟩, d2)] := by
  have h1 : c.capture d1 =
      { c with
        traces := c.traces ++ [c.trace],
        stored_trace := some c.traces.length,
        diagnostics := c.diagnostics ++ [⟨c.traces.length, d1⟩] } := by
    simp [Context.capture, h]
  have h2 : (c.capture d1).capture d2 =
      { c with
        traces := c.traces ++ [c.trace],
        stored_trace := some c.traces.length,
        diagnostics := c.diagnostics ++ [⟨c.traces.length, d1⟩, ⟨c.traces.length, d2⟩] } := by
    rw [h1]
    simp [Context.capture]
  refine ⟨by rw [h2], by rw [h2], ?_⟩
  rw [h2]
  simp only [Context.drain, List.map_append]
  rw [List.drop_left' (by simp)]
  simp [List.getElem?_concat_length]

/-- Witness for C3 (amended) at a fresh context and two concrete
diagnostics. -/
theorem C3_consecutive_captures_witness :
    Context.new.stored_trace = none ∧
    ((Context.new.capture (Diagnostic.DeviceError 0)).capture
        (Diagnostic.DeviceError 1)).traces = Context.new.traces ++ [Context.new.trace] :=
  ⟨rfl,
    (C3_consecutive_captures_intern_once Context.new (Diagnostic.DeviceError 0)
      (Diagnostic.DeviceError 1) rfl).1⟩

/-- Claim C4: the balanced sequence `enter "a"; enter "b"; leave (token of
"b"); leave (token of "a")` restores an empty trace, and (in debug builds,
where the `debug_assert!`s are fatal) `leave` on an empty trace, or with a
token that does not record the depth of the top of the trace, is fatal —
never silently ignored. -/
theorem C4_balanced_enter_leave_and_fatal_mismatch :
    balancedEnterLeave.map Context.trace = some [] ∧
    (∀ (c : Context) (e : Enter), c.trace = [] → c.leave e = none) ∧
    (∀ (c : Context) (e : Enter), e.trace + 1 ≠ c.trace.length → c.leave e = none) := by
  refine ⟨by decide, ?_, ?_⟩
  · intro c e h
    simp [Context.leave, h]
  · intro c e h
    rcases hl : c.trace.getLast? with _ | step
    · simp [Context.leave, hl]
    · have hne : c.trace ≠ [] := by
        intro hnil
        rw [hnil] at hl
        simp at hl
      have hlen : 0 < c.trace.length := List.length_pos.mpr hne
      have hmis : ¬e.trace = c.trace.length - 1 := by omega
      simp [Context.leave, hl, List.length_dropLast, hmis]

/-- Witness for C4: `leave` on a fresh (empty-trace) context is fatal, and
`leave` with a token recording the wrong depth is fatal. -/
theorem C4_leave_mismatch_witness :
    Context.new.leave { trace := 0, capture := none } = none ∧
    (Context.new.enter "a").1.leave { trace := 5, capture := none } = none :=
  ⟨C4_balanced_enter_leave_and_fatal_mismatch.2.1 Context.new { trace := 0, capture := none } rfl,
    C4_balanced_enter_leave_and_fatal_mismatch.2.2 (Context.new.enter "a").1
      { trace := 5, capture := none } (by decide)⟩

/-- Claim C10: when the current trace is empty, `index i` never fails and
leaves the trace, the captured diagnostics and the interned traces
unchanged; it only resets the interned-path cache. -/
theorem C10_index_on_empty_trace (c : Context) (i : Nat) (h : c.trace = []) :
    (c.index i).trace = c.trace ∧ (c.index i).diagnostics = c.diagnostics ∧
      (c.index i).traces = c.traces ∧ (c.index i).stored_trace = none := by
  simp [Context.index, h]

/-- Witness for C10 at a fresh context and a concrete index. -/
theorem C10_index_witness :
    (Context.new.index 7).trace = Context.new.trace ∧
      (Context.new.index 7).diagnostics = Context.new.diagnostics ∧
      (Context.new.index 7).traces = Context.new.traces ∧
      (Context.new.index 7).stored_trace = none :=
  C10_index_on_empty_trace Context.new 7 rfl

lemma try_from_backend_eq {GlobalT : Type} {Args Ret : EntryName → Type}
    (impl : Backend → (n : EntryName) → GlobalT → Args n → Ret n)
    (cfg : BuildConfig) (b : Backend) :
    CoreTable.try_from_backend impl cfg b =
      if cfg.compiled b then some (CoreTable.new impl b) else none := by
  cases b <;> simp [CoreTable.try_from_backend, gfx_try_if, BuildConfig.compiled]

lemma from_backend_eq_try {GlobalT : Type} {Args Ret : EntryName → Type}
    (impl : Backend → (n : EntryName) → GlobalT → Args n → Ret n)
    (cfg : BuildConfig) (b : Backend) :
    CoreTable.from_backend impl cfg b = CoreTable.try_from_backend impl cfg b := by
  cases h : CoreTable.try_from_backend impl cfg b <;>
    simp [CoreTable.from_backend, h]

/-- Claim C5: for every backend tag compiled into the build, `from_backend`
returns (does not panic) the table whose `backend` field equals the tag,
and any two calls return the identical pointer-equal static instance (so
the tables compare equal under the `PartialEq` of `CoreTable`). -/
theorem C5_from_backend_singleton {GlobalT : Type} {Args Ret : EntryName → Type}
    (impl : Backend → (n : EntryName) → GlobalT → Args n → Ret n)
    (cfg : BuildConfig) (b : Backend) (h : cfg.compiled b = true) :
    ∃ t, CoreTable.from_backend impl cfg b = some t ∧ t.backend = b ∧
      ∀ u, CoreTable.from_backend impl cfg b = some u → CoreTable.ptr_eq t u = true := by
  have hb : CoreTable.from_backend impl cfg b = some (CoreTable.new impl b) := by
    simp [from_backend_eq_try, try_from_backend_eq, h]
  refine ⟨CoreTable.new impl b, hb, rfl, ?_⟩
  intro u hu
  rw [hb] at hu
  cases hu
  simp [CoreTable.ptr_eq]

/-- Witness for C5 at the all-backends build, the Vulkan tag, and the
trivial entry instantiation. -/
theorem C5_from_backend_witness :
    cfgAll.compiled Backend.Vulkan = true ∧
    ∃ t, CoreTable.from_backend unitImpl cfgAll Backend.Vulkan = some t ∧
      t.backend = Backend.Vulkan ∧
      ∀ u, CoreTable.from_backend unitImpl cfgAll Backend.Vulkan = some u →
        CoreTable.ptr_eq t u = true :=
  ⟨rfl, C5_from_backend_singleton unitImpl cfgAll Backend.Vulkan rfl⟩

/-- Claim C6: serializing a table writes exactly its backend tag;
deserializing that form on a build with the same compiled-in backends
yields a table whose backend tag equals that of the original; deserializing a
tag whose backend is not compiled in fails with the descriptive
"Unsupported backend" error, never silently substituting the table of another
backend. -/
theorem C6_serde_round_trip {GlobalT : Type} {Args Ret : EntryName → Type}
    (impl : Backend → (n : EntryName) → GlobalT → Args n → Ret n)
    (cfg : BuildConfig) (t : CoreTable GlobalT Args Ret)
    (h : cfg.compiled t.backend = true) :
    (∃ u, CoreTable.deserialize impl cfg (CoreTable.serialize t) = Except.ok u ∧
        u.backend = t.backend) ∧
    (∀ b, cfg.compiled b = false →
        CoreTable.deserialize impl cfg b =
          Except.error ("Unsupported backend: " ++ b.to_str)) := by
  constructor
  · refine ⟨CoreTable.new impl t.backend, ?_, rfl⟩
    simp [CoreTable.deserialize, CoreTable.serialize, try_from_backend_eq, h]
  · intro b hb
    simp [CoreTable.deserialize, try_from_backend_eq, hb]

/-- Witness for C6 at the all-backends build and the Metal table. -/
theorem C6_serde_witness :
    cfgAll.compiled (CoreTable.new unitImpl Backend.Metal).backend = true ∧
    ∃ u, CoreTable.deserialize unitImpl cfgAll
        (CoreTable.serialize (CoreTable.new unitImpl Backend.Metal)) = Except.ok u ∧
      u.backend = (CoreTable.new unitImpl Backend.Metal).backend :=
  ⟨rfl, (C6_serde_round_trip unitImpl cfgAll (CoreTable.new unitImpl Backend.Metal) rfl).1⟩

/-- Claim C7: every table entry forwards its arguments unchanged to the
corresponding backend-specific `Global` method from which the table was
constructed and returns the result of that method unchanged: invoking entry `n`
of the table built for backend `b` equals the direct call `impl b n` on the
same global and arguments — the table performs no validation of its own. -/
theorem C7_table_entry_forwards {GlobalT : Type} {Args Ret : EntryName → Type}
    (impl : Backend → (n : EntryName) → GlobalT → Args n → Ret n)
    (b : Backend) (n : EntryName) (global : GlobalT) (a : Args n) :
    (CoreTable.new impl b).invoke n global a = impl b n global a := rfl

/-- Claim C9: for every backend tag not compiled into the build (including
`BrowserWebGpu`, which is outside the set of tags with tables),
`try_from_backend` returns the unsupported outcome `none`; it is a total
function and never panics. -/
theorem C9_try_from_backend_unsupported {GlobalT : Type} {Args Ret : EntryName → Type}
    (impl : Backend → (n : EntryName) → GlobalT → Args n → Ret n)
    (cfg : BuildConfig) (b : Backend) (h : cfg.compiled b = false) :
    CoreTable.try_from_backend impl cfg b = none := by
  simp [try_from_backend_eq, h]

/-- Witness for C9: a disabled Vulkan backend and the `BrowserWebGpu` tag
both resolve to the unsupported outcome. -/
theorem C9_try_from_backend_witness :
    cfgNone.compiled Backend.Vulkan = false ∧
    CoreTable.try_from_backend unitImpl cfgNone Backend.Vulkan = none ∧
    CoreTable.try_from_backend unitImpl cfgAll Backend.BrowserWebGpu = none :=
  ⟨rfl, C9_try_from_backend_unsupported unitImpl cfgNone Backend.Vulkan rfl,
    C9_try_from_backend_unsupported unitImpl cfgAll Backend.BrowserWebGpu rfl⟩

lemma drainSurfaces_shared_none (l : List SurfaceElement) (i k : Nat)
    (hk : SurfaceElement.Occupied k ∈ l) (hne : k ≠ 1) :
    drainSurfaces l i = none := by
  induction l generalizing i with
  | nil => simp at hk
  | cons el rest ih =>
      cases el with
      | Vacant =>
          have hmem : SurfaceElement.Occupied k ∈ rest := by
            rcases List.mem_cons.mp hk with h | h
            · exact absurd h (by simp)
            · exact h
          simp [drainSurfaces, ih (i + 1) hmem]
      | Occupied m =>
          rcases List.mem_cons.mp hk with h | h
          · have hkm : k = m := by
              injection h
            subst hkm
            simp [drainSurfaces, hne]
          · by_cases hm : m = 1
            · simp [drainSurfaces, hm, ih (i + 1) h]
            · simp [drainSurfaces, hm]

/-- Claim C8 counterexample: dropping a concrete `Global` (all backends
compiled in, one surface solely owned by the registry) destroys the surface
at trace position 4 and drops the platform instance at position 5: the
instance is dropped only AFTER the surfaces are drained and destroyed —
the surfaces are destroyed through the instance, which the order stated by the claim
(instance before surfaces) would make impossible. -/
theorem C8_counterexample_instance_dropped_after_surfaces :
    Global.drop cfgAll { surfaces := [SurfaceElement.Occupied 1] } = some c8trace ∧
    c8trace.indexOf (TeardownEvent.destroy_surface 0) <
      c8trace.indexOf TeardownEvent.drop_instance := by
  decide

/-- Claim C8 (amended): on `Global` destruction the resource hub of every
compiled-in native backend is cleared first, only after that are the
registered surfaces drained and destroyed, and only after that is the
platform instance dropped; destroying a surface to which some other owner
still holds a shared reference (strong count other than one) is a fatal
invariant violation (a panic), not a recoverable error or a silent leak. -/
theorem C8_teardown_order (cfg : BuildConfig) (g : Global) :
    (∀ tr, Global.drop cfg g = some tr →
        ∃ events, drainSurfaces g.surfaces 0 = some events ∧
          tr = hubClearEvents cfg ++ events ++ [TeardownEvent.drop_instance]) ∧
    (∀ k, SurfaceElement.Occupied k ∈ g.surfaces → k ≠ 1 → Global.drop cfg g = none) := by
  constructor
  · intro tr htr
    rcases hd : drainSurfaces g.surfaces 0 with _ | events
    · simp [Global.drop, hd] at htr
    · refine ⟨events, rfl, ?_⟩
      simp [Global.drop, hd] at htr
      rw [List.append_assoc]
      exact htr.symm
  · intro k hk hne
    simp [Global.drop, drainSurfaces_shared_none g.surfaces 0 k hk hne]

/-- Witness for C8 (amended): the solely-owned-surface trace decomposes as
hubs, then surfaces, then the instance; a surface with an extra owner makes
the drop fatal. -/
theorem C8_teardown_witness :
    (∃ events, drainSurfaces [SurfaceElement.Occupied 1] 0 = some events ∧
        c8trace = hubClearEvents cfgAll ++ events ++ [TeardownEvent.drop_instance]) ∧
    Global.drop cfgAll { surfaces := [SurfaceElement.Occupied 2] } = none :=
  ⟨(C8_teardown_order cfgAll { surfaces := [SurfaceElement.Occupied 1] }).1 c8trace (by decide),
    (C8_teardown_order cfgAll { surfaces := [SurfaceElement.Occupied 2] }).2 2 (by decide)
      (by decide)⟩

end WgpuCore
